import Mathlib

/-!
Shallow embedding of the mcjar front-end core (`src/src/App.tsx`): the
selection-resolution state machine (type → version → build, with
auto-selection), the catalog fetcher guards, the version render filter,
and the fingerprint identification flow (drag/drop, hashing, lookup).

JavaScript `undefined`/absent values are modelled as `Option`; a JavaScript
runtime fault (TypeError from indexing a list out of range, such as
`versions[-1].latest`) is modelled as an outer `none` on the result of the
effect that would throw.
-/

/-! ## Data model (from `@/api/*` shapes as used in `App.tsx`) -/

/-- A version's `latest` reference: either `versionId` or `projectVersionId`. -/
structure LatestRef where
  versionId : Option String
  projectVersionId : Option String
deriving DecidableEq

/-- One entry of the version list returned by `apiGetVersions`. -/
structure MinecraftVersion where
  type : Option String
  latest : LatestRef
  builds : Nat
deriving DecidableEq

/-- One entry of the type list returned by `apiGetTypes` (fields used by the core). -/
structure MinecraftType where
  identifier : String
  name : String
deriving DecidableEq

/-- `PartialMinecraftBuild` (fields used by the core). -/
structure PartialMinecraftBuild where
  id : Nat
  buildType : Option String
  versionId : Option String
  projectVersionId : Option String
  buildNumber : Nat
deriving DecidableEq

/-- `v.latest.versionId ?? v.latest.projectVersionId` — the identifier derived
for a version entry everywhere the source compares or selects versions. -/
def derivedId (v : MinecraftVersion) : Option String :=
  match v.latest.versionId with
  | some s => some s
  | none => v.latest.projectVersionId

/-! ## JavaScript list helpers

`Array.prototype.findIndex` returns the index of the first match or `-1`;
indexing an array at `-1` (or past the end) yields `undefined`, and a member
access on that `undefined` throws a TypeError. -/

/-- Index of the first element satisfying `p`, if any (JS `findIndex` without
the `-1` encoding). -/
def firstIdx {α : Type} (p : α → Bool) : List α → Option Nat
  | [] => none
  | x :: rest => if p x then some 0 else (firstIdx p rest).map Nat.succ

/-- JS `findIndex`: first matching index, or `-1`. -/
def findIndexJS {α : Type} (p : α → Bool) (l : List α) : Int :=
  match firstIdx p l with
  | some i => (i : Int)
  | none => -1

/-- JS array indexing at a possibly negative index: `l[i]` is `undefined`
when `i < 0` or `i ≥ l.length`. -/
def jsIndex {α : Type} (l : List α) (i : Int) : Option α :=
  if i < 0 then none else l[i.toNat]?

/-! ## Selection state machine (`App.tsx` lines 16–61, 244–248, 292–323) -/

/-- The selection state held by `App`: query params `type` and `version`,
and the `build` drawer state. -/
structure SelectionState where
  typeId : Option String
  versionId : Option String
  build : Option PartialMinecraftBuild
deriving DecidableEq

/-- The initial state: no query params, no build open. -/
def initialSelection : SelectionState := ⟨none, none, none⟩

/-- Effect at lines 49–53: `if (types && !type) setType(types[0].identifier)`.
Result is the new `type` value; outer `none` models the TypeError from
`types[0].identifier` when `types` is the (truthy) empty array. -/
def typesEffect (types : List MinecraftType) (ty : Option String) :
    Option (Option String) :=
  if ty.isNone then
    match types[0]? with
    | some t => some (some t.identifier)
    | none => none
  else some ty

/-- `v.type === 'RELEASE' || !v.type` — the release-precedence predicate of
the version auto-select effect (line 57). -/
def isReleaseLike (v : MinecraftVersion) : Bool :=
  v.type == some "RELEASE" || v.type.isNone

/-- Effect at lines 55–61: when the current `version` does not appear among
the derived identifiers, `findIndex` the first RELEASE-or-untagged entry and
select its derived identifier. Result is the new `version` value; outer
`none` models the TypeError from `versions[index].latest` when
`findIndex` returned `-1`. -/
def versionsEffect (versions : List MinecraftVersion) (version : Option String) :
    Option (Option String) :=
  if (versions.find? fun v => derivedId v == version).isSome then
    some version
  else
    let index := findIndexJS isReleaseLike versions
    match jsIndex versions index with
    | some v => some (derivedId v)
    | none => none

/-- The discrete inputs the selection machine reacts to. -/
inductive SelectionEvent where
  | typesArrive (types : List MinecraftType)
  | versionsArrive (versions : List MinecraftVersion)
  | userSelectType (t : MinecraftType)
  | userSelectVersion (v : MinecraftVersion)
  | userOpenBuild (b : PartialMinecraftBuild)
  | buildDrawerChange (isOpen : Bool)

/-- One step of the selection machine. `typesArrive`/`versionsArrive` run the
two `useEffect` bodies; `userSelectType` is the type button `onClick`
(`setType(t.identifier)` only, line 248); `userSelectVersion` is the version
button `onClick` (line 296); `userOpenBuild` is the build button `onClick`
(line 323); `buildDrawerChange` is the build drawer `onOpenChange`
(line 152). `none` propagates an effect fault. -/
def selectionStep (s : SelectionState) : SelectionEvent → Option SelectionState
  | .typesArrive types =>
      (typesEffect types s.typeId).map fun t => { s with typeId := t }
  | .versionsArrive versions =>
      (versionsEffect versions s.versionId).map fun v => { s with versionId := v }
  | .userSelectType t => some { s with typeId := some t.identifier }
  | .userSelectVersion v => some { s with versionId := derivedId v }
  | .userOpenBuild b => some { s with build := some b }
  | .buildDrawerChange isOpen =>
      some { s with build := if isOpen then s.build else none }

/-- Run the machine over a list of events, propagating faults. -/
def selectionRun (s : SelectionState) : List SelectionEvent → Option SelectionState
  | [] => some s
  | e :: rest =>
    match selectionStep s e with
    | some s2 => selectionRun s2 rest
    | none => none

/-! ## Catalog fetcher guards (`App.tsx` lines 37–47) -/

/-- Fetcher of the `['versions', type]` key:
`() => type ? apiGetVersions(type) : undefined`. `some t` is the
`apiGetVersions(t)` call issued; `none` is the `undefined` result with no
remote call. -/
def versionsFetcher (ty : Option String) : Option String :=
  match ty with
  | some t => some t
  | none => none

/-- Fetcher of the `['builds', type, version]` key:
`() => type && version ? apiGetBuilds(type, version) : undefined`. -/
def buildsFetcher (ty version : Option String) : Option (String × String) :=
  match ty, version with
  | some t, some v => some (t, v)
  | _, _ => none

/-! ## Version render filter (`App.tsx` line 292) -/

/-- The predicate of `versions.filter(...)` in the version column:
`!v.type || (v.latest.versionId ?? v.latest.projectVersionId) === version ||
v.type === 'RELEASE' || (v.type === 'SNAPSHOT' && includeSnapshots)`. -/
def versionRenderFilter (includeSnapshots : Bool) (version : Option String)
    (v : MinecraftVersion) : Bool :=
  v.type.isNone || derivedId v == version || v.type == some "RELEASE" ||
    (v.type == some "SNAPSHOT" && includeSnapshots)

/-! ## Fingerprint identification flow (`App.tsx` lines 21–23, 79–118) -/

/-- The three state variables of the flow: `isDragging`, `isJarDropLoading`,
`jarDropBuild`. -/
structure FingerprintState where
  isDragging : Bool
  isJarDropLoading : Bool
  jarDropBuild : Option PartialMinecraftBuild
deriving DecidableEq

/-- The Idle state: no drag, no hashing in progress, no held result. -/
def idleState : FingerprintState := ⟨false, false, none⟩

/-- Synchronous body of the `drop` listener (lines 79–105): clear the drag
flag, set the loading flag, then take `e.dataTransfer?.files[0]`; with no
file it returns early. The second component is the file handed to the
`FileReader`, if any (a file is its byte sequence). -/
def dropHandler (files : List (List Nat)) (s : FingerprintState) :
    FingerprintState × Option (List Nat) :=
  let s2 := { s with isDragging := false, isJarDropLoading := true }
  match files[0]? with
  | none => (s2, none)
  | some f => (s2, some f)

/-- The two failure kinds a hash lookup can end in: a network failure, or
the not-found rejection `apiGetBuild` surfaces when no build matches. -/
inductive LookupError where
  | network
  | notFound
deriving DecidableEq

/-- Effect of the lookup settling (the `try`/`catch` around `apiGetBuild`,
lines 95–101): on success hold the build and clear loading; on any failure
only clear loading. -/
def lookupComplete (result : Except LookupError PartialMinecraftBuild)
    (s : FingerprintState) : FingerprintState :=
  match result with
  | .ok b => { s with jarDropBuild := some b, isJarDropLoading := false }
  | .error _ => { s with isJarDropLoading := false }

/-- The fingerprint drawer `onOpenChange` handler (lines 110–118): a no-op
while loading; otherwise set the drag flag to `isOpen` and, on close,
discard the held result. -/
def drawerOnOpenChange (isOpen : Bool) (s : FingerprintState) :
    FingerprintState :=
  if s.isJarDropLoading then s
  else
    let s2 := { s with isDragging := isOpen }
    if isOpen then s2 else { s2 with jarDropBuild := none }

/-- Discrete events driving the flow. `readerLoaded` is the start of a
`reader.onload` callback (`setIsJarDropLoading(true)`, line 90);
`lookupDone` is its asynchronous tail settling. The listeners are
registered on `window` for the whole page lifetime, so every event can
arrive in every state, and nothing ties a `lookupDone` to the latest drop. -/
inductive FlowEvent where
  | dragEnter
  | dragOver
  | dragLeave
  | drop (files : List (List Nat))
  | readerLoaded
  | lookupDone (result : Except LookupError PartialMinecraftBuild)
  | drawerChange (isOpen : Bool)

/-- One step of the fingerprint flow. -/
def flowStep (s : FingerprintState) : FlowEvent → FingerprintState
  | .dragEnter => { s with isDragging := true }
  | .dragOver => { s with isDragging := true }
  | .dragLeave => { s with isDragging := false }
  | .drop files => (dropHandler files s).1
  | .readerLoaded => { s with isJarDropLoading := true }
  | .lookupDone r => lookupComplete r s
  | .drawerChange isOpen => drawerOnOpenChange isOpen s

/-- Run the flow over an event schedule. -/
def flowRun (s : FingerprintState) (events : List FlowEvent) : FingerprintState :=
  events.foldl flowStep s

/-! ## Content digest

Modelled from the spec: the digest collaborator
`crypto.subtle.digest('SHA-256', bytes)` (line 91) is an external primitive,
not part of `src/`; the spec (§6, §8) pins it as the 256-bit SHA-256 content
digest with the well-known empty-input vector, so it is implemented here per
FIPS 180-4 over byte lists. The hex rendering below it (`hexDigit`,
`byteToHex`, `hashHex`) embeds lines 92–93 of the source. -/

/-- Truncation to a 32-bit word. -/
def w32 (x : Nat) : Nat := x % 4294967296

/-- 32-bit right rotation by `n`. -/
def rotr (n x : Nat) : Nat := w32 ((x >>> n) ||| (x <<< (32 - n)))

/-- FIPS 180-4 Σ0. -/
def bigSigma0 (x : Nat) : Nat := rotr 2 x ^^^ rotr 13 x ^^^ rotr 22 x

/-- FIPS 180-4 Σ1. -/
def bigSigma1 (x : Nat) : Nat := rotr 6 x ^^^ rotr 11 x ^^^ rotr 25 x

/-- FIPS 180-4 σ0. -/
def smallSigma0 (x : Nat) : Nat := rotr 7 x ^^^ rotr 18 x ^^^ (x >>> 3)

/-- FIPS 180-4 σ1. -/
def smallSigma1 (x : Nat) : Nat := rotr 17 x ^^^ rotr 19 x ^^^ (x >>> 10)

/-- FIPS 180-4 Ch. -/
def chFn (x y z : Nat) : Nat := (x &&& y) ^^^ ((x ^^^ 4294967295) &&& z)

/-- FIPS 180-4 Maj. -/
def majFn (x y z : Nat) : Nat := (x &&& y) ^^^ (x &&& z) ^^^ (y &&& z)

/-- The 64 SHA-256 round constants. -/
def sha256K : List Nat :=
  [1116352408, 1899447441, 3049323471, 3921009573, 961987163,
   1508970993, 2453635748, 2870763221, 3624381080, 310598401,
   607225278, 1426881987, 1925078388, 2162078206, 2614888103,
   3248222580, 3835390401, 4022224774, 264347078, 604807628,
   770255983, 1249150122, 1555081692, 1996064986, 2554220882,
   2821834349, 2952996808, 3210313671, 3336571891, 3584528711,
   113926993, 338241895, 666307205, 773529912, 1294757372,
   1396182291, 1695183700, 1986661051, 2177026350, 2456956037,
   2730485921, 2820302411, 3259730800, 3345764771, 3516065817,
   3600352804, 4094571909, 275423344, 430227734, 506948616,
   659060556, 883997877, 958139571, 1322822218, 1537002063,
   1747873779, 1955562222, 2024104815, 2227730452, 2361852424,
   2428436474, 2756734187, 3204031479, 3329325298]

/-- The eight 32-bit words of a SHA-256 hash state. -/
structure Hash8 where
  h0 : Nat
  h1 : Nat
  h2 : Nat
  h3 : Nat
  h4 : Nat
  h5 : Nat
  h6 : Nat
  h7 : Nat

/-- The SHA-256 initial hash value. -/
def initHash : Hash8 :=
  ⟨1779033703, 3144134277, 1013904242, 2773480762,
   1359893119, 2600822924, 528734635, 1541459225⟩

/-- Big-endian bytes of an (at most) 64-bit value. -/
def be8 (n : Nat) : List Nat :=
  [n >>> 56 % 256, n >>> 48 % 256, n >>> 40 % 256, n >>> 32 % 256,
   n >>> 24 % 256, n >>> 16 % 256, n >>> 8 % 256, n % 256]

/-- Pad a byte message to a multiple of 64 bytes: append `0x80`, zeros, and
the big-endian 64-bit bit length. -/
def padMessage (msg : List Nat) : List Nat :=
  let z := (119 - msg.length % 64) % 64
  msg ++ 128 :: (List.replicate z 0 ++ be8 (8 * msg.length))

/-- Split into 64-byte chunks; the fuel keeps the recursion structural so the
kernel can evaluate it. -/
def chunksGo (fuel : Nat) (l : List Nat) : List (List Nat) :=
  match fuel, l with
  | 0, _ => []
  | _, [] => []
  | f + 1, l => l.take 64 :: chunksGo f (l.drop 64)

/-- Split a byte list into 64-byte chunks. -/
def chunks64 (l : List Nat) : List (List Nat) :=
  chunksGo l.length l

/-- Group 4 bytes at a time into big-endian 32-bit words. -/
def toWords : List Nat → List Nat
  | b0 :: b1 :: b2 :: b3 :: rest =>
      ((b0 <<< 24) ||| (b1 <<< 16) ||| (b2 <<< 8) ||| b3) :: toWords rest
  | _ => []

/-- Extend the 16 block words to the 64-entry message schedule. -/
def extendWords (ws : List Nat) : List Nat :=
  (List.range 48).foldl
    (fun acc _ =>
      let n := acc.length
      acc ++ [w32 (acc.getD (n - 16) 0 + smallSigma0 (acc.getD (n - 15) 0) +
                   acc.getD (n - 7) 0 + smallSigma1 (acc.getD (n - 2) 0))])
    ws

/-- One SHA-256 compression over a 64-byte block. -/
def compressBlock (H : Hash8) (block : List Nat) : Hash8 :=
  let ws := extendWords (toWords block)
  let step := fun (st : Nat × Nat × Nat × Nat × Nat × Nat × Nat × Nat) (i : Nat) =>
    let (a, b, c, d, e, f, g, hv) := st
    let t1 := w32 (hv + bigSigma1 e + chFn e f g + sha256K.getD i 0 + ws.getD i 0)
    let t2 := w32 (bigSigma0 a + majFn a b c)
    (w32 (t1 + t2), a, b, c, w32 (d + t1), e, f, g)
  let r := (List.range 64).foldl step (H.h0, H.h1, H.h2, H.h3, H.h4, H.h5, H.h6, H.h7)
  ⟨w32 (H.h0 + r.1), w32 (H.h1 + r.2.1), w32 (H.h2 + r.2.2.1), w32 (H.h3 + r.2.2.2.1),
   w32 (H.h4 + r.2.2.2.2.1), w32 (H.h5 + r.2.2.2.2.2.1),
   w32 (H.h6 + r.2.2.2.2.2.2.1), w32 (H.h7 + r.2.2.2.2.2.2.2)⟩

/-- Big-endian bytes of a 32-bit word. -/
def wordBytes (w : Nat) : List Nat :=
  [w >>> 24 % 256, w >>> 16 % 256, w >>> 8 % 256, w % 256]

/-- SHA-256 of a byte sequence, as the 32 digest bytes in order. -/
def sha256 (msg : List Nat) : List Nat :=
  let final := (chunks64 (padMessage msg)).foldl compressBlock initHash
  wordBytes final.h0 ++ wordBytes final.h1 ++ wordBytes final.h2 ++
  wordBytes final.h3 ++ wordBytes final.h4 ++ wordBytes final.h5 ++
  wordBytes final.h6 ++ wordBytes final.h7

/-- A single lowercase hex digit, as JS `Number.prototype.toString(16)`
renders digits. -/
def hexDigit (n : Nat) : Char :=
  if n < 10 then Char.ofNat (48 + n) else Char.ofNat (87 + n)

/-- `b.toString(16).padStart(2, '0')` (line 93) for a byte value `b < 256`,
made total by reducing the high digit mod 16. -/
def byteToHex (b : Nat) : String :=
  String.mk [hexDigit (b / 16 % 16), hexDigit (b % 16)]

/-- Lines 91–93: digest the bytes, render each byte as two lowercase hex
digits, and join in byte order. -/
def hashHex (bytes : List Nat) : String :=
  String.join ((sha256 bytes).map byteToHex)

/-- A lowercase hexadecimal digit character. -/
def isLowerHexDigit (c : Char) : Bool :=
  (48 ≤ c.toNat && c.toNat ≤ 57) || (97 ≤ c.toNat && c.toNat ≤ 102)

/-! ## Concrete runs used by the counterexamples -/

/-- A build opened from the vanilla 1.20 build list. -/
def vanillaBuild : PartialMinecraftBuild := ⟨1, some "vanilla", some "1.20", none, 1⟩

/-- Types arrive, vanilla auto-selected; vanilla versions arrive, 1.20
auto-selected; the user opens a vanilla build, then selects the paper type. -/
def typeSwitchEvents : List SelectionEvent :=
  [.typesArrive [⟨"vanilla", "Vanilla"⟩, ⟨"paper", "Paper"⟩],
   .versionsArrive [⟨some "RELEASE", ⟨some "1.20", none⟩, 3⟩],
   .userOpenBuild vanillaBuild,
   .userSelectType ⟨"paper", "Paper"⟩]

/-- The build the first dropped file resolves to. -/
def firstDropBuild : PartialMinecraftBuild := ⟨10, some "vanilla", some "1.20", none, 5⟩

/-- The build the second dropped file resolves to. -/
def secondDropBuild : PartialMinecraftBuild := ⟨20, some "paper", none, some "1.20.1", 7⟩

/-- A schedule the listeners admit: two drops in a row, then the second
file's lookup settles, then the first file's (slower) lookup settles. -/
def twoDropSchedule : List FlowEvent :=
  [.drop [[1]], .readerLoaded, .drop [[2]], .readerLoaded,
   .lookupDone (.ok secondDropBuild), .lookupDone (.ok firstDropBuild)]

/-! ## Helper lemmas -/

theorem string_data_foldl (l : List String) :
    ∀ acc : String, (l.foldl (· ++ ·) acc).data = acc.data ++ (l.map String.data).flatten := by
  induction l with
  | nil => intro acc; simp
  | cons x xs ih =>
    intro acc
    simp [List.foldl, ih, String.data_append, List.append_assoc]

theorem string_data_join (l : List String) :
    (String.join l).data = (l.map String.data).flatten := by
  simpa [String.join] using string_data_foldl l ""

theorem hashHex_data (bytes : List Nat) :
    (hashHex bytes).data =
      ((sha256 bytes).map fun b => [hexDigit (b / 16 % 16), hexDigit (b % 16)]).flatten := by
  rw [hashHex, string_data_join, List.map_map]
  rfl

theorem sha256_length (msg : List Nat) : (sha256 msg).length = 32 := by
  simp [sha256, wordBytes]

theorem hexPairs_join_length (l : List Nat) :
    ((l.map fun b => [hexDigit (b / 16 % 16), hexDigit (b % 16)]).flatten).length =
      2 * l.length := by
  induction l with
  | nil => simp
  | cons x xs ih => simp [ih]; omega

theorem hexDigit_isLowerHex (n : Nat) (h : n < 16) :
    isLowerHexDigit (hexDigit n) = true := by
  interval_cases n <;> decide

/-! ## The claims -/

/-- C1: the version auto-select effect has no unconditional first-entry
fallback: on a non-empty all-SNAPSHOT list that does not contain the
selected identifier, `findIndex` returns `-1` and `versions[-1].latest`
throws a TypeError (modelled as the `none` result), so the effect faults
instead of selecting the first entry `1.21-pre1`. -/
theorem version_autoselect_all_snapshot_faults :
    versionsEffect [⟨some "SNAPSHOT", ⟨some "1.21-pre1", none⟩, 1⟩] none = none ∧
    versionsEffect [⟨some "SNAPSHOT", ⟨some "1.21-pre1", none⟩, 1⟩] none ≠
      some (some "1.21-pre1") := by
  decide

/-- C2 (counterexample): running the machine from the initial state through
the events of `typeSwitchEvents` reaches a state whose `typeId` is `paper`
while `versionId` is still vanilla's `1.20` and the open build is still
vanilla's — selecting a new type clears neither, refuting both the claimed
invariant and the claimed clearing transition. -/
theorem type_switch_keeps_stale_selection :
    selectionRun initialSelection typeSwitchEvents =
      some ⟨some "paper", some "1.20", some vanillaBuild⟩ ∧
    (selectionRun initialSelection typeSwitchEvents).map SelectionState.versionId ≠
      some none ∧
    (selectionRun initialSelection typeSwitchEvents).map SelectionState.build ≠
      some none := by
  decide

/-- C2 (amended): selecting a type updates only `typeId`; the previously
selected `versionId` and open build are left in place — the stale version is
replaced only later, when the new type's version list arrives and the
auto-select effect fires, and the open build is never cleared by a type
change at all. -/
theorem select_type_updates_only_typeId (s : SelectionState) (t : MinecraftType) :
    selectionStep s (.userSelectType t) =
      some ⟨some t.identifier, s.versionId, s.build⟩ :=
  rfl

/-- C3: a drop with zero files is not a no-op returning to `Idle`: the
handler sets the loading flag before checking for a file and then returns,
so the flow is left in a stuck in-progress state (no read started), and the
drawer dismissal handler refuses to reset it while the flag is set. -/
theorem zero_file_drop_leaves_loading_stuck :
    flowStep idleState (.drop []) = ⟨false, true, none⟩ ∧
    flowStep idleState (.drop []) ≠ idleState ∧
    (dropHandler [] idleState).2 = none ∧
    drawerOnOpenChange false (flowStep idleState (.drop [])) =
      flowStep idleState (.drop []) := by
  decide

/-- C4 (counterexample): in the admissible schedule `twoDropSchedule` —
two drops, then the second file's lookup settles, then the first file's —
the final state holds the first file's build, not the second's: the prior
attempt's effect on state is not discarded. -/
theorem stale_lookup_overwrites_second_drop :
    flowRun idleState twoDropSchedule = ⟨false, false, some firstDropBuild⟩ ∧
    firstDropBuild ≠ secondDropBuild := by
  decide

/-- C4 (amended): nothing cancels a superseded lookup; every completion is
applied to state unconditionally, so the final state reflects whichever
lookup completes last (last-completion-wins), regardless of drop order. -/
theorem last_completed_lookup_wins (s : FingerprintState) (events : List FlowEvent)
    (b : PartialMinecraftBuild) :
    (flowRun s (events ++ [.lookupDone (.ok b)])).jarDropBuild = some b ∧
    (flowRun s (events ++ [.lookupDone (.ok b)])).isJarDropLoading = false := by
  have h : flowRun s (events ++ [.lookupDone (.ok b)]) =
      lookupComplete (.ok b) (flowRun s events) := by
    simp [flowRun, List.foldl_append, flowStep]
  rw [h]
  exact ⟨rfl, rfl⟩

set_option maxRecDepth 10000 in
/-- C5: the digest is a deterministic pure function of the bytes; the
rendered digest is 64 characters of lowercase zero-padded hex in byte
order; and the empty byte sequence hashes to the well-known SHA-256
empty-input digest. -/
theorem digest_hex_properties :
    (∀ bytes : List Nat, hashHex bytes = hashHex bytes) ∧
    (∀ bytes : List Nat, (hashHex bytes).length = 64) ∧
    (∀ (bytes : List Nat) (c : Char), c ∈ (hashHex bytes).data →
      isLowerHexDigit c = true) ∧
    hashHex [] = "e3b0c44298fc1c149afbf4c8996fb92427ae41e4649b934ca495991b7852b855" := by
  refine ⟨fun _ => rfl, ?_, ?_, ?_⟩
  · intro bytes
    have h1 : (hashHex bytes).length = (hashHex bytes).data.length := rfl
    rw [h1, hashHex_data, hexPairs_join_length, sha256_length]
  · intro bytes c hc
    rw [hashHex_data] at hc
    obtain ⟨l, hl, hcl⟩ := List.mem_flatten.mp hc
    obtain ⟨b, _, rfl⟩ := List.mem_map.mp hl
    rcases List.mem_cons.mp hcl with rfl | hcl2
    · exact hexDigit_isLowerHex _ (Nat.mod_lt _ (by norm_num))
    · rcases List.mem_cons.mp hcl2 with rfl | hcl3
      · exact hexDigit_isLowerHex _ (Nat.mod_lt _ (by norm_num))
      · simp at hcl3
  · decide

set_option maxRecDepth 10000 in
/-- C5 witness: instantiating the lowercase-hex clause at the first
character of the empty-input digest. -/
theorem digest_hex_properties_witness : isLowerHexDigit 'e' = true :=
  digest_hex_properties.2.2.1 [] 'e' (by decide)

/-- C6: with `includeSnapshots` unset/false, a version entry passes the
render filter exactly when its type tag is absent, is RELEASE, or its
derived identifier equals the currently selected version — so SNAPSHOT
entries are hidden except the selected one. -/
theorem snapshot_filter_rendered_iff (vs : List MinecraftVersion)
    (version : Option String) (v : MinecraftVersion) :
    v ∈ vs.filter (versionRenderFilter false version) ↔
      v ∈ vs ∧ (v.type = none ∨ v.type = some "RELEASE" ∨ derivedId v = version) := by
  rw [List.mem_filter]
  simp only [versionRenderFilter, Bool.and_false, Bool.or_false, Bool.or_eq_true,
    Option.isNone_iff_eq_none, beq_iff_eq, decide_eq_true_eq]
  tauto

/-- C6 witness: an untagged entry is rendered. -/
theorem snapshot_filter_rendered_iff_witness :
    (⟨none, ⟨some "1.20", none⟩, 1⟩ : MinecraftVersion) ∈
      List.filter (versionRenderFilter false none)
        [⟨none, ⟨some "1.20", none⟩, 1⟩] :=
  (snapshot_filter_rendered_iff _ _ _).mpr ⟨by decide, Or.inl rfl⟩

/-- C7: any lookup failure — network or not-found alike — ends the flow in
the single neutral state (loading cleared, nothing held), and the resulting
state does not depend on which failure kind occurred. -/
theorem lookup_failure_collapses (s : FingerprintState) (e : LookupError)
    (hb : s.jarDropBuild = none) (hd : s.isDragging = false) :
    lookupComplete (.error e) s = idleState ∧
    ∀ e2 : LookupError, lookupComplete (.error e) s = lookupComplete (.error e2) s := by
  obtain ⟨d, l, b⟩ := s
  simp_all [lookupComplete, idleState]

/-- C7 witness: a network failure from the canonical hashing state ends in
`idleState`. -/
theorem lookup_failure_collapses_witness :
    lookupComplete (.error .network) ⟨false, true, none⟩ = idleState :=
  (lookup_failure_collapses ⟨false, true, none⟩ .network rfl rfl).1

/-- C8: when a non-empty type list arrives while no type is selected, the
machine selects the head of the server-ordered list; when a type is already
selected (user choice or restored from the URL), the effect never overrides
it. -/
theorem type_autoselect_first (types : List MinecraftType) (t0 : MinecraftType)
    (h : types.head? = some t0) :
    typesEffect types none = some (some t0.identifier) ∧
    ∀ cur : String, typesEffect types (some cur) = some (some cur) := by
  constructor
  · cases types with
    | nil => simp at h
    | cons a rest =>
      simp only [List.head?_cons, Option.some.injEq] at h
      subst h
      simp [typesEffect]
  · intro cur
    rfl

/-- C8 witness: first type of a concrete two-entry list is auto-selected. -/
theorem type_autoselect_first_witness :
    typesEffect [⟨"vanilla", "Vanilla"⟩, ⟨"paper", "Paper"⟩] none =
      some (some "vanilla") :=
  (type_autoselect_first [⟨"vanilla", "Vanilla"⟩, ⟨"paper", "Paper"⟩]
    ⟨"vanilla", "Vanilla"⟩ rfl).1

/-- C9: with the governing parameter unset, the fetcher returns the
not-applicable value without issuing the remote call (`none` carries no
`apiGetVersions`/`apiGetBuilds` invocation); with it set, the versions
fetcher issues exactly the call for that parameter. -/
theorem unresolved_key_no_fetch :
    versionsFetcher none = none ∧
    (∀ version : Option String, buildsFetcher none version = none) ∧
    (∀ ty : Option String, buildsFetcher ty none = none) ∧
    (∀ t : String, versionsFetcher (some t) = some t) := by
  refine ⟨rfl, fun v => rfl, fun ty => ?_, fun t => rfl⟩
  cases ty <;> rfl

/-- C10: while the loading flag is set, the fingerprint drawer dismissal
handler is a no-op: the state (drag flag, loading flag, held result) is
returned unchanged for either intent. -/
theorem dismissal_noop_while_loading (s : FingerprintState) (isOpen : Bool)
    (h : s.isJarDropLoading = true) :
    drawerOnOpenChange isOpen s = s := by
  simp [drawerOnOpenChange, h]

/-- C10 witness: a close intent in the canonical hashing state changes
nothing. -/
theorem dismissal_noop_while_loading_witness :
    drawerOnOpenChange false ⟨false, true, none⟩ = ⟨false, true, none⟩ :=
  dismissal_noop_while_loading ⟨false, true, none⟩ false rfl
